import Mathlib

/-!
Verification of the star-openapi router layer (`star_openapi/router.py`,
`star_openapi/types.py`).  Python dictionaries are modelled as association
lists with insertion-order semantics: `dinsert` replaces an existing binding
in place and otherwise appends, so a sequence of insertions behaves exactly
like assignments into a `dict`.  Helper modules of the package that are not
part of the provided sources (`utils.py`, `endpoint.py`, `models.py`) are
modelled from the specification; each such definition carries a doc comment
saying so.
-/

namespace StarOpenapi

/-- Lookup in an association list: first binding wins, as in a Python dict
(where keys are unique, so first = only). -/
def dlookup {α : Type} (k : String) : List (String × α) → Option α
  | [] => none
  | (k', v) :: d => if k' = k then some v else dlookup k d

/-- Assignment `d[k] = v` on a Python dict: replace the binding in place if
the key exists, otherwise append it. -/
def dinsert {α : Type} (k : String) (v : α) : List (String × α) → List (String × α)
  | [] => [(k, v)]
  | (k', v') :: d => if k' = k then (k, v) :: d else (k', v') :: dinsert k v d

/-- Python's `d.update(e)` / `{**d, **e}`: assign every binding of `e` into
`d`, in order, so a later binding for the same key wins. -/
def dupdate {α : Type} (d e : List (String × α)) : List (String × α) :=
  e.foldl (fun acc kv => dinsert kv.1 kv.2 acc) d

/-- The keys of an association list. -/
def dkeys {α : Type} (d : List (String × α)) : List String :=
  d.map Prod.fst

/-! ### Data model (`models.py` is not among the provided sources; the small
record types below are modelled from the spec's glossary and from how
`router.py` uses them) -/

/-- Modelled from the spec: a `Tag` object has a name and optional
description; `router.py` compares tags by `tag.name` and stores tag names in
`tag_names`. -/
structure Tag where
  name : String
  description : Option String := none
deriving DecidableEq, Repr

/-- Modelled from the spec: one OpenAPI security requirement, a mapping from
scheme name to a list of scopes; `router.py` only concatenates lists of
these. -/
abbrev SecurityRequirement : Type := List (String × List String)

/-- Modelled from the spec: an OpenAPI server object; `router.py` only passes
these lists through. -/
structure Server where
  url : String
  description : Option String := none
deriving DecidableEq, Repr

/-- Modelled from the spec: an external-documentation object; `router.py`
only stores it on the operation when provided. -/
structure ExternalDocumentation where
  url : String
  description : Option String := none
deriving DecidableEq, Repr

/-- Modelled from the spec: an explicit OpenAPI request-body object;
`router.py` only threads it through to `parse_parameters`. -/
structure RequestBody where
  content : Nat := 0
deriving DecidableEq, Repr

/-- Keys of a `ResponseDict` (`types.py`): `str | int | HTTPStatus`.
An `HTTPStatus` is an int-valued enum, carried here as its numeric value. -/
inductive RespKey where
  | strKey (s : String)
  | intKey (n : Nat)
  | statusKey (n : Nat)
deriving DecidableEq, Repr

/-- Modelled from the spec: a response value is a `BaseModel` subclass (a
named, reusable component schema), a plain dict, or `None` (`types.py`
`_ResponseDictValue`).  Schema bodies are opaque to the router and are
carried as `Nat` identifiers. -/
inductive RespValue where
  | model (name : String) (schema : Nat)
  | dict (d : Nat)
  | noneVal
deriving DecidableEq, Repr

/-- String form of a response key, as Python's `str()` produces it:
a string stays itself, an `int` or `HTTPStatus` becomes its decimal digits. -/
def RespKey.toKeyString : RespKey → String
  | .strKey s => s
  | .intKey n => toString n
  | .statusKey n => toString n

/-- Modelled from the spec (`utils.py` is not among the provided sources):
`convert_responses_key_to_string` rebuilds the responses dict with every
status key normalized to a string, so that e.g. `422` and `"422"` become the
same key. -/
def convert_responses_key_to_string (responses : List (RespKey × RespValue)) :
    List (String × RespValue) :=
  responses.foldl (fun acc kv => dinsert kv.1.toKeyString kv.2 acc) []

/-- Modelled from the spec: a `BaseModel` subclass used as a parameter
annotation — a named component schema (the schema body is opaque). -/
structure ModelClass where
  name : String
  schema : Nat
deriving DecidableEq, Repr

/-- Modelled from the spec: what the router reads off a handler function —
its `__name__` and its annotated parameters (parameter name paired with the
annotated model class). -/
structure HandlerFunc where
  name : String
  params : List (String × ModelClass) := []
deriving DecidableEq, Repr

/-- `ParametersTuple` of `types.py`: six slots, each a `BaseModel` subclass
or `None`, in the fixed order header, cookie, path, query, form, body. -/
abbrev ParametersTuple : Type :=
  Option ModelClass × Option ModelClass × Option ModelClass ×
    Option ModelClass × Option ModelClass × Option ModelClass

/-- Modelled from the spec (`endpoint.py` is not among the provided
sources): `create_endpoint` wraps the handler together with its six
classified parameter models into the request-parsing endpoint that
validates raw request data before invoking the handler. -/
structure Endpoint where
  func : HandlerFunc
  header : Option ModelClass
  cookie : Option ModelClass
  path : Option ModelClass
  query : Option ModelClass
  form : Option ModelClass
  body : Option ModelClass
deriving DecidableEq, Repr

/-- Modelled from the spec: the endpoint wrapper construction (see
`Endpoint`). -/
def create_endpoint (func : HandlerFunc)
    (header cookie path query form body : Option ModelClass) : Endpoint :=
  ⟨func, header, cookie, path, query, form, body⟩

/-- The OpenAPI operation object, restricted to the fields `router.py`
assigns. -/
structure Operation where
  summary : Option String := none
  description : Option String := none
  externalDocs : Option ExternalDocumentation := none
  operationId : Option String := none
  deprecated : Option Bool := none
  security : Option (List SecurityRequirement) := none
  servers : Option (List Server) := none
  tags : Option (List String) := none
deriving DecidableEq, Repr

/-- An OpenAPI path item: the operations of one path, keyed by method. -/
abbrev PathItem : Type := List (String × Operation)

/-- `APIRoute` (`router.py`): a starlette `Route` that additionally remembers
`origin_path`, the path as it was before a missing leading slash was
prepended.  The starlette base class is out of scope; we keep the fields the
router itself sets and reads. -/
structure APIRoute where
  path : String
  origin_path : String
  endpoint : Endpoint
  methods : List String
  name : Option String := none
  include_in_schema : Bool := true
deriving DecidableEq, Repr

/-- `APIWebSocketRoute` (`router.py`): a websocket route that remembers
`origin_path`.  Its endpoint is the raw handler (no parameter wrapper). -/
structure APIWebSocketRoute where
  path : String
  origin_path : String
  endpoint : HandlerFunc
  name : Option String := none
deriving DecidableEq, Repr

/-- One entry of `self.routes`. -/
inductive RouteEntry where
  | api (r : APIRoute)
  | ws (r : APIWebSocketRoute)
deriving DecidableEq, Repr

/-- The state of an `APIRouter` (`router.py` `__init__`); `urlPrefix` is the
source's `url_prefix` attribute.  The `operation_id_callback` attribute is
fixed to the default `get_operation_id_for_path` (no claim concerns a custom
callback). -/
structure RouterState where
  urlPrefix : String := ""
  paths : List (String × PathItem) := []
  components_schemas : List (String × Nat) := []
  tags : List Tag := []
  api_tags : List Tag := []
  tag_names : List String := []
  security : List SecurityRequirement := []
  responses : List (String × RespValue) := []
  doc_ui : Bool := true
  routes : List RouteEntry := []
deriving DecidableEq, Repr

/-- `APIRouter.__init__`: `tags`, `security`, `responses` default to empty
(`x or []` turns `None` into the empty value), and `responses` is stored
with its keys normalized to strings. -/
def APIRouter.init (urlPrefix : String := "") (tags : List Tag := [])
    (security : List SecurityRequirement := [])
    (responses : List (RespKey × RespValue) := []) (doc_ui : Bool := true) :
    RouterState :=
  { urlPrefix := urlPrefix
    paths := []
    components_schemas := []
    tags := []
    api_tags := tags
    tag_names := []
    security := security
    responses := convert_responses_key_to_string responses
    doc_ui := doc_ui
    routes := [] }

/-! ### Modelled `utils.py` helpers -/

/-- Python's `s.rstrip('/')`: drop every trailing slash. -/
def rstripSlash (s : String) : String :=
  String.mk ((s.data.reverse.dropWhile (fun c => c = '/')).reverse)

/-- Leading-slash normalization performed inline by `_add_route` and
`_add_websocket_route`: prepend `'/'` when the path does not start with
one. -/
def ensure_leading_slash (p : String) : String :=
  if p.startsWith "/" then p else "/" ++ p

/-- Modelled from the spec: `get_operation_id_for_path` (absent `utils.py`)
derives a unique operation id from the handler name, path and method. -/
def get_operation_id_for_path (urlPrefix name path method : String) : String :=
  urlPrefix ++ "_" ++ name ++ "_" ++ path ++ "_" ++ method

/-- Modelled from the spec: `get_operation` (absent `utils.py`) creates the
operation object carrying the summary and description of the handler. -/
def get_operation (_func : HandlerFunc) (summary description : Option String) :
    Operation :=
  { summary := summary, description := description }

/-- Modelled from the spec: `parse_rule` (absent `utils.py`) merges the
router's `url_prefix` into the rule to obtain the OpenAPI path key. -/
def parse_rule (rule : String) (urlPrefix : String := "") : String :=
  rstripSlash urlPrefix ++ ensure_leading_slash rule

/-- Modelled from the spec: `parse_method` (absent `utils.py`) stores the
operation in the paths dict under the uri and the lower-cased method key. -/
def parse_method (uri : String) (method : String) (paths : List (String × PathItem))
    (operation : Operation) : List (String × PathItem) :=
  dinsert uri (dinsert method operation ((dlookup uri paths).getD [])) paths

/-- Tag-storing loop shared by `register_api` (lines 113-118, written inline
there) and, per the spec, by `parse_and_store_tags` of the absent
`utils.py`: a tag is appended, together with its name, only when no tag of
that name is present yet. -/
def store_tags (new_tags : List Tag) (tags : List Tag) (tag_names : List String) :
    List Tag × List String :=
  new_tags.foldl
    (fun acc t =>
      if t.name ∈ acc.2 then acc else (acc.1 ++ [t], acc.2 ++ [t.name]))
    (tags, tag_names)

/-- Modelled from the spec: the operation-tags part of
`parse_and_store_tags` (absent `utils.py`) — the operation lists the names
of the given tags, or is left unset when there are none. -/
def operation_tags_of (new_tags : List Tag) : Option (List String) :=
  if new_tags.isEmpty then none else some (new_tags.map Tag.name)

/-- Modelled from the spec: `get_responses` (absent `utils.py`) registers
the named component schema of every `BaseModel` response value into
`components_schemas` (the operation's responses body is out of scope of the
claims). -/
def get_responses (responses : List (String × RespValue))
    (components_schemas : List (String × Nat)) : List (String × Nat) :=
  responses.foldl
    (fun acc kv =>
      match kv.2 with
      | .model n s => dinsert n s acc
      | _ => acc)
    components_schemas

/-- Modelled from the spec: the classification core of `parse_parameters`
(absent `utils.py`) — the handler's annotated parameters named `header`,
`cookie`, `path`, `query`, `form`, `body` fill the six slots of the
`ParametersTuple`, in that fixed order. -/
def find_param (func : HandlerFunc) (slot : String) : Option ModelClass :=
  (func.params.find? (fun p => p.1 = slot)).map Prod.snd

/-- Modelled from the spec: `parse_parameters` (absent `utils.py`)
classifies the handler's annotated parameters into the six-slot tuple; with
`doc_ui` enabled it additionally registers each model's named component
schema, with `doc_ui` disabled it touches no document state. -/
def parse_parameters (func : HandlerFunc)
    (components_schemas : List (String × Nat) := []) (doc_ui : Bool := true) :
    List (String × Nat) × ParametersTuple :=
  let t : ParametersTuple :=
    (find_param func "header", find_param func "cookie", find_param func "path",
      find_param func "query", find_param func "form", find_param func "body")
  if doc_ui then
    let models := [t.1, t.2.1, t.2.2.1, t.2.2.2.1, t.2.2.2.2.1, t.2.2.2.2.2]
    (models.foldl
      (fun acc m =>
        match m with
        | some mc => dinsert mc.name mc.schema acc
        | none => acc)
      components_schemas, t)
  else
    (components_schemas, t)

/-! ### `router.py` operations -/

/-- Keyword arguments of the HTTP decorators that flow into
`_collect_openapi_info`.  Arguments whose Python default `None` is read
through `x or []` / `if x:` are carried as lists with `[]` for `None`,
which has the same truthiness. -/
structure RouteArgs where
  name : Option String := none
  tags : List Tag := []
  summary : Option String := none
  description : Option String := none
  external_docs : Option ExternalDocumentation := none
  operation_id : Option String := none
  deprecated : Option Bool := none
  security : List SecurityRequirement := []
  servers : List Server := []
  openapi_extensions : Option Nat := none
  request_body : Option RequestBody := none
  responses : List (RespKey × RespValue) := []
  doc_ui : Bool := true
deriving DecidableEq, Repr

/-- Responses dict passed to `get_responses` by `_collect_openapi_info`
(lines 159-164): the route's responses with keys normalized to strings,
merged over the router-level responses, the route entry winning. -/
def combine_responses (st : RouterState) (a : RouteArgs) :
    List (String × RespValue) :=
  dupdate st.responses (convert_responses_key_to_string a.responses)

/-- Operation construction of `_collect_openapi_info` (lines 166-198): the
straight-line field assignments performed on the freshly created operation
object. -/
def operation_of (st : RouterState) (rule : String) (func : HandlerFunc)
    (a : RouteArgs) (method : String) : Operation :=
  let op := get_operation func a.summary a.description
  let op :=
    match a.external_docs with
    | some e => { op with externalDocs := some e }
    | none => op
  let op :=
    { op with
      operationId := some (a.operation_id.getD
        (get_operation_id_for_path st.urlPrefix func.name rule method)) }
  let op :=
    match a.deprecated with
    | some d => { op with deprecated := some d }
    | none => op
  let sec := a.security ++ st.security
  let op := if sec.isEmpty then op else { op with security := some sec }
  let op := if a.servers.isEmpty then op else { op with servers := some a.servers }
  { op with tags := operation_tags_of (a.tags ++ st.api_tags) }

/-- `_collect_openapi_info` (lines 140-220).  With the document UI enabled on
both the router and the route it builds the operation, stores tags, paths
and component schemas, and returns the parsed parameter tuple; otherwise it
only classifies the parameters.  (In Python the operation object stored by
`parse_method` is mutated afterwards by `get_responses` and
`parse_parameters`; here the fully built operation is stored directly.) -/
def collect_openapi_info (st : RouterState) (rule : String) (func : HandlerFunc)
    (a : RouteArgs) (method : String) : RouterState × ParametersTuple :=
  if st.doc_ui && a.doc_ui then
    let combined := combine_responses st a
    let op := operation_of st rule func a method
    let stored := store_tags (a.tags ++ st.api_tags) st.tags st.tag_names
    let uri := parse_rule rule st.urlPrefix
    let comps := get_responses combined st.components_schemas
    let parsed := parse_parameters func comps true
    let newPaths := parse_method uri method st.paths op
    ({ st with
        paths := newPaths
        tags := stored.1
        tag_names := stored.2
        components_schemas := parsed.1 }, parsed.2)
  else
    (st, (parse_parameters func [] false).2)

/-- `_add_route` (lines 222-243): remember the given path as `origin_path`,
prepend a missing leading slash, and append the new `APIRoute`. -/
def add_route (st : RouterState) (path : String) (endpoint : Endpoint)
    (methods : List String) (name : Option String := none)
    (include_in_schema : Bool := true) : RouterState :=
  let route : APIRoute :=
    { path := ensure_leading_slash path
      origin_path := path
      endpoint := endpoint
      methods := methods
      name := name
      include_in_schema := include_in_schema }
  { st with routes := st.routes ++ [RouteEntry.api route] }

/-- `_add_websocket_route` (lines 245-257). -/
def add_websocket_route (st : RouterState) (path : String)
    (endpoint : HandlerFunc) (name : Option String := none) : RouterState :=
  let route : APIWebSocketRoute :=
    { path := ensure_leading_slash path
      origin_path := path
      endpoint := endpoint
      name := name }
  { st with routes := st.routes ++ [RouteEntry.ws route] }

/-- Route re-registration step of `register_api` (lines 127-138): an
`APIRoute` or `APIWebSocketRoute` of the child is re-added with the child's
`url_prefix` prepended to its `origin_path` (and a missing leading slash
restored by `_add_route`, which also leaves `include_in_schema` at its
default `True`). -/
def reregister_route (childPrefix : String) : RouteEntry → RouteEntry
  | RouteEntry.api r =>
      RouteEntry.api
        { path := ensure_leading_slash (childPrefix ++ r.origin_path)
          origin_path := childPrefix ++ r.origin_path
          endpoint := r.endpoint
          methods := r.methods
          name := r.name
          include_in_schema := true }
  | RouteEntry.ws r =>
      RouteEntry.ws
        { path := ensure_leading_slash (childPrefix ++ r.origin_path)
          origin_path := childPrefix ++ r.origin_path
          endpoint := r.endpoint
          name := r.name }

/-- `register_api` (lines 106-138): merge the child's tags (skipping names
already present), its paths under `self.url_prefix.rstrip('/')`, its
component schemas, and re-register its routes under the child's
`url_prefix`. -/
def register_api (self api : RouterState) : RouterState :=
  let stored := store_tags api.tags self.tags self.tag_names
  let prefixed := api.paths.map (fun kv => (rstripSlash self.urlPrefix ++ kv.1, kv.2))
  let st :=
    { self with
        tags := stored.1
        tag_names := stored.2
        paths := dupdate self.paths prefixed
        components_schemas := dupdate self.components_schemas api.components_schemas }
  api.routes.foldl
    (fun acc route =>
      match route with
      | RouteEntry.api r =>
          add_route acc (api.urlPrefix ++ r.origin_path) r.endpoint r.methods r.name
      | RouteEntry.ws r =>
          add_websocket_route acc (api.urlPrefix ++ r.origin_path) r.endpoint r.name)
    st

/-- Common body of the five HTTP decorators (lines 296-318 and analogues):
collect the OpenAPI info, wrap the handler with `create_endpoint`, add the
route with the single given method, and return the original handler. -/
def http_route (method : String) (st : RouterState) (rule : String)
    (a : RouteArgs) (func : HandlerFunc) : RouterState × HandlerFunc :=
  let collected := collect_openapi_info st rule func a method
  let t := collected.2
  let endpoint := create_endpoint func t.1 t.2.1 t.2.2.1 t.2.2.2.1 t.2.2.2.2.1 t.2.2.2.2.2
  (add_route collected.1 rule endpoint [method] a.name false, func)

/-- `APIRouter.get` (lines 259-318). -/
def APIRouter.get (st : RouterState) (rule : String) (a : RouteArgs)
    (func : HandlerFunc) : RouterState × HandlerFunc :=
  http_route "GET" st rule a func

/-- `APIRouter.post` (lines 320-382). -/
def APIRouter.post (st : RouterState) (rule : String) (a : RouteArgs)
    (func : HandlerFunc) : RouterState × HandlerFunc :=
  http_route "POST" st rule a func

/-- `APIRouter.put` (lines 384-446). -/
def APIRouter.put (st : RouterState) (rule : String) (a : RouteArgs)
    (func : HandlerFunc) : RouterState × HandlerFunc :=
  http_route "PUT" st rule a func

/-- `APIRouter.delete` (lines 448-510). -/
def APIRouter.delete (st : RouterState) (rule : String) (a : RouteArgs)
    (func : HandlerFunc) : RouterState × HandlerFunc :=
  http_route "DELETE" st rule a func

/-- `APIRouter.patch` (lines 512-574). -/
def APIRouter.patch (st : RouterState) (rule : String) (a : RouteArgs)
    (func : HandlerFunc) : RouterState × HandlerFunc :=
  http_route "PATCH" st rule a func

/-- `APIRouter.websocket` (lines 576-590). -/
def APIRouter.websocket (st : RouterState) (rule : String)
    (name : Option String) (func : HandlerFunc) : RouterState × HandlerFunc :=
  (add_websocket_route st rule func name, func)

/-! ### Event sequences and nested registration chains -/

/-- One externally visible state-changing action on a router: registering a
child router, applying an HTTP decorator, or applying the websocket
decorator. -/
inductive RouterEvent where
  | registerApi (child : RouterState)
  | httpRoute (method : String) (rule : String) (a : RouteArgs) (func : HandlerFunc)
  | wsRoute (rule : String) (name : Option String) (func : HandlerFunc)

/-- Apply one event to a router state. -/
def applyEvent (st : RouterState) : RouterEvent → RouterState
  | RouterEvent.registerApi c => register_api st c
  | RouterEvent.httpRoute m rule a f => (http_route m st rule a f).1
  | RouterEvent.wsRoute rule n f => (APIRouter.websocket st rule n f).1

/-- Apply a sequence of events to a router state. -/
def applyEvents (st : RouterState) (evs : List RouterEvent) : RouterState :=
  evs.foldl applyEvent st

/-- Register a child router through a chain of parents: the head of the list
registers the child, the next element registers the updated head, and so
on. -/
def register_chain (c : RouterState) : List RouterState → RouterState
  | [] => c
  | p :: ps => register_chain (register_api p c) ps

/-- The `url_prefix` values applied along a registration chain, in
application order: at each step the prefix of the current child is applied
(the final host's own prefix is not). -/
def applied_prefixes (c : RouterState) : List RouterState → List String
  | [] => []
  | p :: ps => c.urlPrefix :: applied_prefixes (register_api p c) ps

/-- Prepend a list of prefixes to a path, first prefix innermost. -/
def prepend_all (prefixes : List String) (o : String) : String :=
  prefixes.foldl (fun acc u => u ++ acc) o

/-- Invariant of the claim C6: the recorded tag names are exactly the names
of the recorded tags, without duplicates. -/
def TagInv (st : RouterState) : Prop :=
  st.tag_names = st.tags.map Tag.name ∧ st.tag_names.Nodup

/-- Formalisation of the words of claim C7: the operation's servers field
would hold the per-route servers merged with the router-level servers. -/
def claimed_servers_merge (route_servers router_servers : List Server) :
    Option (List Server) :=
  some (route_servers ++ router_servers)

/-- Concrete router used to refute C7. -/
def routerC7 : RouterState :=
  { urlPrefix := "", security := [[("jwt", [])]], doc_ui := true }

/-- Concrete handler used to refute C7. -/
def funcC7 : HandlerFunc := { name := "get_book" }

/-- Concrete parent router used to refute C1: it already holds a component
schema named "Book" (with body 1). -/
def parentC1 : RouterState := { components_schemas := [("Book", 1)] }

/-- Concrete child router used to refute C1: it holds a different component
schema under the same name "Book" (with body 2). -/
def childC1 : RouterState := { components_schemas := [("Book", 2)] }

/-- Endpoint of the last registered route, if it is an HTTP route. -/
def last_api_endpoint (st : RouterState) : Option Endpoint :=
  match st.routes.getLast? with
  | some (RouteEntry.api r) => some r.endpoint
  | _ => none

/-- Concrete router mirroring `test_openapi.py` for the C9 witness. -/
def routerW9 : RouterState := APIRouter.init "" [] [] [] true

/-- Concrete decorator arguments with `doc_ui=False` for the C9 witness. -/
def argsW9 : RouteArgs := { doc_ui := false }

/-- Concrete handler for the C9 witness. -/
def funcW9 : HandlerFunc := { name := "get_book1" }

/-- Concrete route for the C10 witness, mirroring
`test_nested_api_router.py`'s `get_english_book`. -/
def routeW10 : APIRoute :=
  { path := "/english"
    origin_path := "/english"
    endpoint := create_endpoint { name := "get_english_book" }
      none none none none none none
    methods := ["GET"]
    name := none
    include_in_schema := false }

/-- Concrete child router for the C10 witness (`api_english`). -/
def apiEnglishW : RouterState :=
  { urlPrefix := "", routes := [RouteEntry.api routeW10], paths := [("/english", [])] }

/-- Concrete intermediate router for the C10 witness (`api`). -/
def apiBookW : RouterState := { urlPrefix := "/api/book" }

/-- Concrete outermost application for the C10 witness (`app`). -/
def appW : RouterState := { urlPrefix := "" }

/-! ### Theorems -/

theorem dkeys_cons {α : Type} (kv : String × α) (d : List (String × α)) :
    dkeys (kv :: d) = kv.1 :: dkeys d := rfl

theorem dlookup_dinsert {α : Type} (k k' : String) (v : α) (d : List (String × α)) :
    dlookup k' (dinsert k v d) = if k = k' then some v else dlookup k' d := by
  induction d with
  | nil => simp [dinsert, dlookup]
  | cons kv d ih =>
    by_cases h0 : kv.1 = k
    · rw [show dinsert k v (kv :: d) = (k, v) :: d from by simp [dinsert, h0]]
      by_cases h1 : k = k' <;> simp [dlookup, h0, h1]
    · rw [show dinsert k v (kv :: d) = kv :: dinsert k v d from by simp [dinsert, h0]]
      by_cases h1 : kv.1 = k'
      · have hne : ¬ k = k' := fun he => h0 (h1.trans he.symm)
        simp [dlookup, h1, hne]
      · simp [dlookup, h1, ih]

theorem dlookup_append {α : Type} (k : String) (d e : List (String × α)) :
    dlookup k (d ++ e) = (dlookup k d).orElse (fun _ => dlookup k e) := by
  induction d with
  | nil => simp [dlookup]
  | cons kv d ih =>
    by_cases h : kv.1 = k
    · simp [dlookup, h]
    · simp [dlookup, h, ih]

theorem dlookup_eq_none_of_not_mem {α : Type} (k : String) (d : List (String × α))
    (h : k ∉ dkeys d) : dlookup k d = none := by
  induction d with
  | nil => rfl
  | cons kv d ih =>
    rw [dkeys_cons, List.mem_cons, not_or] at h
    have h1 : ¬ kv.1 = k := fun he => h.1 he.symm
    simp [dlookup, h1, ih h.2]

theorem dkeys_dinsert {α : Type} (k : String) (v : α) (d : List (String × α)) :
    dkeys (dinsert k v d) = if k ∈ dkeys d then dkeys d else dkeys d ++ [k] := by
  induction d with
  | nil => simp [dinsert, dkeys]
  | cons kv d ih =>
    by_cases h : kv.1 = k
    · rw [show dinsert k v (kv :: d) = (k, v) :: d from by simp [dinsert, h]]
      rw [dkeys_cons, dkeys_cons]
      simp [h]
    · rw [show dinsert k v (kv :: d) = kv :: dinsert k v d from by simp [dinsert, h]]
      rw [dkeys_cons, dkeys_cons, ih]
      have hne : ¬ k = kv.1 := fun he => h he.symm
      by_cases hm : k ∈ dkeys d <;> simp [List.mem_cons, hne, hm]

theorem nodup_dkeys_dinsert {α : Type} (k : String) (v : α) (d : List (String × α))
    (h : (dkeys d).Nodup) : (dkeys (dinsert k v d)).Nodup := by
  rw [dkeys_dinsert]
  by_cases hm : k ∈ dkeys d
  · simpa [hm]
  · simp [hm, List.nodup_append, h, hm]

/-- With duplicate-free keys, looking up in the reversed list is the same as
looking up in the list (there is at most one binding per key). -/
theorem dlookup_reverse_of_nodup {α : Type} (k : String) (d : List (String × α))
    (h : (dkeys d).Nodup) : dlookup k d.reverse = dlookup k d := by
  induction d with
  | nil => rfl
  | cons kv d ih =>
    rw [dkeys_cons, List.nodup_cons] at h
    rw [List.reverse_cons, dlookup_append, ih h.2]
    by_cases hk : kv.1 = k
    · rw [dlookup_eq_none_of_not_mem k d (by rw [← hk]; exact h.1)]
      simp [dlookup, hk]
    · simp only [dlookup, hk, if_neg hk]
      cases dlookup k d <;> simp [dlookup, hk, Option.orElse]

/-- Looking up after `dupdate d e`: the LAST binding of `e` for the key wins,
and otherwise `d` is consulted. -/
theorem dlookup_dupdate {α : Type} (k : String) (d e : List (String × α)) :
    dlookup k (dupdate d e) =
      (dlookup k e.reverse).orElse (fun _ => dlookup k d) := by
  induction e generalizing d with
  | nil => simp [dupdate, dlookup]
  | cons kv e ih =>
    rw [dupdate, List.foldl_cons]
    have hfold : e.foldl (fun acc p => dinsert p.1 p.2 acc) (dinsert kv.1 kv.2 d) =
        dupdate (dinsert kv.1 kv.2 d) e := rfl
    rw [hfold, ih, List.reverse_cons, dlookup_append, dlookup_dinsert]
    by_cases hk : kv.1 = k
    · simp only [dlookup, hk, if_pos rfl]
      cases dlookup k e.reverse <;> simp [Option.orElse]
    · simp only [dlookup, hk, if_neg hk]
      cases dlookup k e.reverse <;> simp [Option.orElse]

/-- When the keys of `e` are duplicate-free (as they are for any real Python
dict), `dupdate d e` is the right-biased union: `e`'s binding wins. -/
theorem dlookup_dupdate_of_nodup {α : Type} (k : String) (d e : List (String × α))
    (h : (dkeys e).Nodup) :
    dlookup k (dupdate d e) = (dlookup k e).orElse (fun _ => dlookup k d) := by
  rw [dlookup_dupdate, dlookup_reverse_of_nodup _ _ h]

/-! ### Structural lemmas -/

theorem register_api_eq (p c : RouterState) :
    register_api p c =
      { p with
          tags := (store_tags c.tags p.tags p.tag_names).1
          tag_names := (store_tags c.tags p.tags p.tag_names).2
          paths := dupdate p.paths
            (c.paths.map (fun kv => (rstripSlash p.urlPrefix ++ kv.1, kv.2)))
          components_schemas :=
            dupdate p.components_schemas c.components_schemas
          routes := p.routes ++ c.routes.map (reregister_route c.urlPrefix) } := by
  have hfold : ∀ (up : String) (l : List RouteEntry) (st : RouterState),
      l.foldl
        (fun acc route =>
          match route with
          | RouteEntry.api r =>
              add_route acc (up ++ r.origin_path) r.endpoint r.methods r.name
          | RouteEntry.ws r =>
              add_websocket_route acc (up ++ r.origin_path) r.endpoint r.name)
        st
      = { st with routes := st.routes ++ l.map (reregister_route up) } := by
    intro up l
    induction l with
    | nil => intro st; simp
    | cons route l ih =>
      intro st
      cases route with
      | api r =>
        rw [List.foldl_cons, ih]
        simp [add_route, reregister_route]
      | ws r =>
        rw [List.foldl_cons, ih]
        simp [add_websocket_route, reregister_route]
  unfold register_api
  rw [hfold]

theorem register_api_urlPrefix (p c : RouterState) :
    (register_api p c).urlPrefix = p.urlPrefix := by
  rw [register_api_eq]

theorem register_api_routes (p c : RouterState) :
    (register_api p c).routes =
      p.routes ++ c.routes.map (reregister_route c.urlPrefix) := by
  rw [register_api_eq]

theorem collect_openapi_info_routes (st : RouterState) (rule : String)
    (func : HandlerFunc) (a : RouteArgs) (method : String) :
    (collect_openapi_info st rule func a method).1.routes = st.routes := by
  unfold collect_openapi_info
  by_cases h : st.doc_ui && a.doc_ui <;> simp [h]

theorem collect_openapi_info_snd (st : RouterState) (rule : String)
    (func : HandlerFunc) (a : RouteArgs) (method : String) :
    (collect_openapi_info st rule func a method).2 =
      (find_param func "header", find_param func "cookie", find_param func "path",
        find_param func "query", find_param func "form", find_param func "body") := by
  unfold collect_openapi_info parse_parameters
  by_cases h : st.doc_ui && a.doc_ui <;> simp [h]

theorem http_route_routes (method : String) (st : RouterState) (rule : String)
    (a : RouteArgs) (func : HandlerFunc) :
    (http_route method st rule a func).1.routes =
      st.routes ++
        [RouteEntry.api
          { path := ensure_leading_slash rule
            origin_path := rule
            endpoint := create_endpoint func (find_param func "header")
              (find_param func "cookie") (find_param func "path")
              (find_param func "query") (find_param func "form")
              (find_param func "body")
            methods := [method]
            name := a.name
            include_in_schema := false }] := by
  simp only [http_route]
  rw [collect_openapi_info_snd]
  simp [add_route, collect_openapi_info_routes]

theorem store_tags_inv (l : List Tag) (ts : List Tag) (ns : List String)
    (h1 : ns = ts.map Tag.name) (h2 : ns.Nodup) :
    (store_tags l ts ns).2 = (store_tags l ts ns).1.map Tag.name ∧
      (store_tags l ts ns).2.Nodup := by
  induction l generalizing ts ns with
  | nil => exact ⟨h1, h2⟩
  | cons t l ih =>
    by_cases hm : t.name ∈ ns
    · have heq : store_tags (t :: l) ts ns = store_tags l ts ns := by
        simp [store_tags, hm]
      rw [heq]
      exact ih ts ns h1 h2
    · have heq : store_tags (t :: l) ts ns =
          store_tags l (ts ++ [t]) (ns ++ [t.name]) := by
        simp [store_tags, hm]
      rw [heq]
      exact ih (ts ++ [t]) (ns ++ [t.name])
        (by rw [h1, List.map_append]; rfl)
        (by simp [List.nodup_append, h2, hm])

theorem collect_openapi_info_tags (st : RouterState) (rule : String)
    (func : HandlerFunc) (a : RouteArgs) (method : String) :
    (collect_openapi_info st rule func a method).1.tags =
        (if st.doc_ui && a.doc_ui then
          (store_tags (a.tags ++ st.api_tags) st.tags st.tag_names).1
        else st.tags) ∧
      (collect_openapi_info st rule func a method).1.tag_names =
        (if st.doc_ui && a.doc_ui then
          (store_tags (a.tags ++ st.api_tags) st.tags st.tag_names).2
        else st.tag_names) := by
  unfold collect_openapi_info
  by_cases h : st.doc_ui && a.doc_ui <;> simp [h]

theorem tagInv_applyEvent (st : RouterState) (ev : RouterEvent)
    (h : TagInv st) : TagInv (applyEvent st ev) := by
  cases ev with
  | registerApi c =>
    show TagInv (register_api st c)
    rw [register_api_eq]
    exact store_tags_inv c.tags st.tags st.tag_names h.1 h.2
  | httpRoute m rule a f =>
    show TagInv (http_route m st rule a f).1
    have hc := collect_openapi_info_tags st rule f a m
    simp only [http_route]
    constructor
    · show (add_route _ _ _ _ _ _).tag_names = (add_route _ _ _ _ _ _).tags.map Tag.name
      simp only [add_route]
      rw [hc.1, hc.2]
      by_cases hd : st.doc_ui && a.doc_ui
      · simp only [hd, if_pos]
        exact (store_tags_inv (a.tags ++ st.api_tags) st.tags st.tag_names h.1 h.2).1
      · simp only [hd, if_neg]
        exact h.1
    · show (add_route _ _ _ _ _ _).tag_names.Nodup
      simp only [add_route]
      rw [hc.2]
      by_cases hd : st.doc_ui && a.doc_ui
      · simp only [hd, if_pos]
        exact (store_tags_inv (a.tags ++ st.api_tags) st.tags st.tag_names h.1 h.2).2
      · simp only [hd, if_neg]
        exact h.2
  | wsRoute rule n f =>
    exact h

theorem tagInv_applyEvents (st : RouterState) (evs : List RouterEvent)
    (h : TagInv st) : TagInv (applyEvents st evs) := by
  induction evs generalizing st with
  | nil => exact h
  | cons ev evs ih =>
    exact ih (applyEvent st ev) (tagInv_applyEvent st ev h)

theorem tagInv_init (urlPrefix : String) (tg : List Tag)
    (sec : List SecurityRequirement) (resp : List (RespKey × RespValue))
    (du : Bool) : TagInv (APIRouter.init urlPrefix tg sec resp du) := by
  exact ⟨rfl, List.nodup_nil⟩

theorem nodup_dkeys_convert (rs : List (RespKey × RespValue)) :
    (dkeys (convert_responses_key_to_string rs)).Nodup := by
  have hgen : ∀ (l : List (RespKey × RespValue)) (acc : List (String × RespValue)),
      (dkeys acc).Nodup →
      (dkeys (l.foldl (fun a kv => dinsert kv.1.toKeyString kv.2 a) acc)).Nodup := by
    intro l
    induction l with
    | nil => intro acc h; exact h
    | cons kv l ih =>
      intro acc h
      exact ih _ (nodup_dkeys_dinsert kv.1.toKeyString kv.2 acc h)
  exact hgen rs [] List.nodup_nil

theorem dlookup_eq_of_mem_of_nodup {α : Type} (k : String) (v : α)
    (d : List (String × α)) (h : (dkeys d).Nodup) (hm : (k, v) ∈ d) :
    dlookup k d = some v := by
  induction d with
  | nil => cases hm
  | cons kv d ih =>
    rw [dkeys_cons, List.nodup_cons] at h
    rcases List.mem_cons.mp hm with heq | htl
    · rw [← heq]
      simp [dlookup]
    · have hk : ¬ kv.1 = k := by
        intro he
        apply h.1
        rw [he]
        exact List.mem_map_of_mem Prod.fst htl
      simp [dlookup, hk, ih h.2 htl]

theorem string_append_left_cancel {a b c : String} (h : a ++ b = a ++ c) :
    b = c := by
  apply String.ext
  have hd := congrArg String.data h
  rw [String.data_append, String.data_append] at hd
  exact List.append_cancel_left hd

theorem nodup_dkeys_map_prefixed {α : Type} (pre : String)
    (l : List (String × α)) (h : (dkeys l).Nodup) :
    (dkeys (l.map (fun kv => (pre ++ kv.1, kv.2)))).Nodup := by
  have hk : dkeys (l.map (fun kv => (pre ++ kv.1, kv.2))) =
      (dkeys l).map (fun s => pre ++ s) := by
    simp [dkeys, List.map_map, Function.comp]
  rw [hk]
  exact h.map (fun s t hst => string_append_left_cancel hst)

/-! ### Claim theorems -/

/-- C2: for every route whose operation is built (doc_ui enabled), the
operation's security field equals the per-route security list concatenated
with the router-level security list; when both are empty the field is left
unset (`None`) rather than set to the empty list.  Also ties the
router-level list to `__init__`: `security or []` stores the given list. -/
theorem C2_security_merge (st : RouterState) (rule : String) (func : HandlerFunc)
    (a : RouteArgs) (method : String) (urlPrefix : String) (tg : List Tag)
    (sec : List SecurityRequirement) (resp : List (RespKey × RespValue))
    (du : Bool) :
    (operation_of st rule func a method).security =
        (if a.security ++ st.security = [] then none
        else some (a.security ++ st.security)) ∧
      (APIRouter.init urlPrefix tg sec resp du).security = sec := by
  refine ⟨?_, rfl⟩
  unfold operation_of get_operation
  by_cases h : (a.security ++ st.security) = [] <;>
    cases a.external_docs <;> cases a.deprecated <;>
      by_cases hs : a.servers.isEmpty <;>
        simp_all [List.isEmpty_iff, operation_tags_of] <;>
          (try (split <;> simp_all))

/-- C3: the responses dict handed to `get_responses` is the union of the
router-level responses and the per-route responses with the per-route entry
winning for an equal key, after all keys (str, int, HTTPStatus) have been
normalized to strings — so `422` and `"422"` are the same key; and
`__init__` stores the router-level responses already normalized. -/
theorem C3_responses_merge (st : RouterState) (a : RouteArgs) (k : String)
    (n : Nat) (urlPrefix : String) (tg : List Tag)
    (sec : List SecurityRequirement) (resp : List (RespKey × RespValue))
    (du : Bool) :
    dlookup k (combine_responses st a) =
        ((dlookup k (convert_responses_key_to_string a.responses)).orElse
          (fun _ => dlookup k st.responses)) ∧
      RespKey.toKeyString (RespKey.intKey n) =
        RespKey.toKeyString (RespKey.strKey (toString n)) ∧
      RespKey.toKeyString (RespKey.statusKey n) =
        RespKey.toKeyString (RespKey.strKey (toString n)) ∧
      (APIRouter.init urlPrefix tg sec resp du).responses =
        convert_responses_key_to_string resp := by
  refine ⟨?_, rfl, rfl, rfl⟩
  exact dlookup_dupdate_of_nodup k st.responses _ (nodup_dkeys_convert a.responses)

/-- C4: parameter collection returns exactly the six-slot tuple (header,
cookie, path, query, form, body), each slot an optional model class, for
every router state and every decorator argument set — in particular whether
doc_ui is enabled or disabled. -/
theorem C4_parameter_classification (st : RouterState) (rule : String)
    (func : HandlerFunc) (a : RouteArgs) (method : String) :
    (collect_openapi_info st rule func a method).2 =
      (find_param func "header", find_param func "cookie",
        find_param func "path", find_param func "query",
        find_param func "form", find_param func "body") :=
  collect_openapi_info_snd st rule func a method

/-- C6: the operation's tags are the per-route tags followed by the
router-level tags (by name, or unset when there are none); and after any
sequence of registrations starting from a fresh router, `tag_names` has no
duplicates and lists exactly the names of `tags`. -/
theorem C6_tag_merge_and_uniqueness (st : RouterState) (rule : String)
    (func : HandlerFunc) (a : RouteArgs) (method : String) (urlPrefix : String)
    (tg : List Tag) (sec : List SecurityRequirement)
    (resp : List (RespKey × RespValue)) (du : Bool) (evs : List RouterEvent) :
    (operation_of st rule func a method).tags =
        (if a.tags ++ st.api_tags = [] then none
        else some ((a.tags ++ st.api_tags).map Tag.name)) ∧
      (applyEvents (APIRouter.init urlPrefix tg sec resp du) evs).tag_names.Nodup ∧
      (applyEvents (APIRouter.init urlPrefix tg sec resp du) evs).tag_names =
        (applyEvents (APIRouter.init urlPrefix tg sec resp du) evs).tags.map
          Tag.name := by
  have h := tagInv_applyEvents _ evs (tagInv_init urlPrefix tg sec resp du)
  refine ⟨?_, h.2, h.1⟩
  unfold operation_of get_operation
  by_cases h : (a.tags ++ st.api_tags) = [] <;>
    cases a.external_docs <;> cases a.deprecated <;>
      by_cases hs : a.servers.isEmpty <;>
        by_cases hc : (a.security ++ st.security).isEmpty <;>
          simp_all [List.isEmpty_iff, operation_tags_of]

/-- C7 (amended): the operation's servers field is set to the per-route
servers exactly when a non-empty per-route list is given; the router holds
no router-level servers, so nothing router-level is merged. -/
theorem C7_amended_servers (st : RouterState) (rule : String)
    (func : HandlerFunc) (a : RouteArgs) (method : String) :
    (operation_of st rule func a method).servers =
      if a.servers = [] then none else some a.servers := by
  unfold operation_of get_operation
  by_cases hs : a.servers = [] <;>
    cases a.external_docs <;> cases a.deprecated <;>
      by_cases hc : (a.security ++ st.security).isEmpty <;>
        simp_all [List.isEmpty_iff, operation_tags_of] <;>
          (try (split <;> simp_all))

/-- C7 is false as stated: a route registered without per-route servers
leaves the operation's servers field unset (`None`), while the claimed
merge of per-route and router-level servers would set the field —
`APIRouter` has no router-level servers attribute at all. -/
theorem C7_counterexample :
    (operation_of routerC7 "/book" funcC7 { } "GET").servers = none ∧
      claimed_servers_merge (RouteArgs.servers { }) [] = some [] ∧
      (none : Option (List Server)) ≠ some [] := by
  refine ⟨rfl, rfl, by simp⟩

/-- C1 is false as stated: when parent and child each hold a component
schema under the same name, `register_api`'s dict update silently replaces
the parent's schema — after the merge the parent's schema body (1) appears
nowhere in the merged mapping. -/
theorem C1_counterexample :
    dlookup "Book" parentC1.components_schemas = some 1 ∧
      (register_api parentC1 childC1).components_schemas = [("Book", 2)] ∧
      (1 : Nat) ∉ ((register_api parentC1 childC1).components_schemas.map
        Prod.snd) := by
  decide

/-- C1 (amended): the component-schema merge of `register_api` is the
right-biased dict union — every name of parent or child remains a key, the
child's schema is taken for a name the child defines (silently replacing
the parent's schema under a colliding name), and the parent's schema is
kept otherwise. -/
theorem C1_amended_components_merge (p c : RouterState) (k : String)
    (h : (dkeys c.components_schemas).Nodup) :
    dlookup k (register_api p c).components_schemas =
      (dlookup k c.components_schemas).orElse
        (fun _ => dlookup k p.components_schemas) := by
  rw [register_api_eq]
  exact dlookup_dupdate_of_nodup k p.components_schemas c.components_schemas h

/-- Witness for C1 (amended) at the concrete colliding routers. -/
theorem C1_amended_witness :
    (dkeys childC1.components_schemas).Nodup ∧
      dlookup "Book" (register_api parentC1 childC1).components_schemas =
        (dlookup "Book" childC1.components_schemas).orElse
          (fun _ => dlookup "Book" parentC1.components_schemas) :=
  ⟨by decide, C1_amended_components_merge parentC1 childC1 "Book" (by decide)⟩

theorem last_api_endpoint_http_route (m : String) (st : RouterState)
    (rule : String) (a : RouteArgs) (func : HandlerFunc) :
    last_api_endpoint (http_route m st rule a func).1 =
      some (create_endpoint func (find_param func "header")
        (find_param func "cookie") (find_param func "path")
        (find_param func "query") (find_param func "form")
        (find_param func "body")) := by
  unfold last_api_endpoint
  rw [http_route_routes, List.getLast?_concat]

/-- C5: every HTTP decorator stores as the route's endpoint the wrapper
built by `create_endpoint` from the handler and its six classified
parameter models, while the decorator itself returns the original handler
unchanged. -/
theorem C5_validation_precedes_handler (st : RouterState) (rule : String)
    (a : RouteArgs) (func : HandlerFunc) :
    ((APIRouter.get st rule a func).2 = func ∧
        last_api_endpoint (APIRouter.get st rule a func).1 =
          some (create_endpoint func (find_param func "header")
            (find_param func "cookie") (find_param func "path")
            (find_param func "query") (find_param func "form")
            (find_param func "body"))) ∧
      ((APIRouter.post st rule a func).2 = func ∧
        last_api_endpoint (APIRouter.post st rule a func).1 =
          some (create_endpoint func (find_param func "header")
            (find_param func "cookie") (find_param func "path")
            (find_param func "query") (find_param func "form")
            (find_param func "body"))) ∧
      ((APIRouter.put st rule a func).2 = func ∧
        last_api_endpoint (APIRouter.put st rule a func).1 =
          some (create_endpoint func (find_param func "header")
            (find_param func "cookie") (find_param func "path")
            (find_param func "query") (find_param func "form")
            (find_param func "body"))) ∧
      ((APIRouter.delete st rule a func).2 = func ∧
        last_api_endpoint (APIRouter.delete st rule a func).1 =
          some (create_endpoint func (find_param func "header")
            (find_param func "cookie") (find_param func "path")
            (find_param func "query") (find_param func "form")
            (find_param func "body"))) ∧
      ((APIRouter.patch st rule a func).2 = func ∧
        last_api_endpoint (APIRouter.patch st rule a func).1 =
          some (create_endpoint func (find_param func "header")
            (find_param func "cookie") (find_param func "path")
            (find_param func "query") (find_param func "form")
            (find_param func "body"))) := by
  refine ⟨⟨rfl, ?_⟩, ⟨rfl, ?_⟩, ⟨rfl, ?_⟩, ⟨rfl, ?_⟩, ⟨rfl, ?_⟩⟩ <;>
    apply last_api_endpoint_http_route

/-- C8: each HTTP decorator appends exactly one route, binding the given
rule (with a missing leading slash restored) to the handler's wrapper,
whose methods collection is exactly the single corresponding HTTP method. -/
theorem C8_route_binding (st : RouterState) (rule : String) (a : RouteArgs)
    (func : HandlerFunc) :
    (APIRouter.get st rule a func).1.routes =
        st.routes ++
          [RouteEntry.api
            { path := ensure_leading_slash rule
              origin_path := rule
              endpoint := create_endpoint func (find_param func "header")
                (find_param func "cookie") (find_param func "path")
                (find_param func "query") (find_param func "form")
                (find_param func "body")
              methods := ["GET"]
              name := a.name
              include_in_schema := false }] ∧
      (APIRouter.post st rule a func).1.routes =
        st.routes ++
          [RouteEntry.api
            { path := ensure_leading_slash rule
              origin_path := rule
              endpoint := create_endpoint func (find_param func "header")
                (find_param func "cookie") (find_param func "path")
                (find_param func "query") (find_param func "form")
                (find_param func "body")
              methods := ["POST"]
              name := a.name
              include_in_schema := false }] ∧
      (APIRouter.put st rule a func).1.routes =
        st.routes ++
          [RouteEntry.api
            { path := ensure_leading_slash rule
              origin_path := rule
              endpoint := create_endpoint func (find_param func "header")
                (find_param func "cookie") (find_param func "path")
                (find_param func "query") (find_param func "form")
                (find_param func "body")
              methods := ["PUT"]
              name := a.name
              include_in_schema := false }] ∧
      (APIRouter.delete st rule a func).1.routes =
        st.routes ++
          [RouteEntry.api
            { path := ensure_leading_slash rule
              origin_path := rule
              endpoint := create_endpoint func (find_param func "header")
                (find_param func "cookie") (find_param func "path")
                (find_param func "query") (find_param func "form")
                (find_param func "body")
              methods := ["DELETE"]
              name := a.name
              include_in_schema := false }] ∧
      (APIRouter.patch st rule a func).1.routes =
        st.routes ++
          [RouteEntry.api
            { path := ensure_leading_slash rule
              origin_path := rule
              endpoint := create_endpoint func (find_param func "header")
                (find_param func "cookie") (find_param func "path")
                (find_param func "query") (find_param func "form")
                (find_param func "body")
              methods := ["PATCH"]
              name := a.name
              include_in_schema := false }] :=
  ⟨http_route_routes "GET" st rule a func, http_route_routes "POST" st rule a func,
    http_route_routes "PUT" st rule a func, http_route_routes "DELETE" st rule a func,
    http_route_routes "PATCH" st rule a func⟩

/-- C9: when the router's doc_ui or the route's doc_ui is disabled,
`_collect_openapi_info` leaves the router's OpenAPI document state
completely unchanged, still returns the six-slot parameter tuple, and the
route is still registered by the decorator. -/
theorem C9_doc_ui_frame (st : RouterState) (rule : String) (func : HandlerFunc)
    (a : RouteArgs) (method : String)
    (h : st.doc_ui = false ∨ a.doc_ui = false) :
    (collect_openapi_info st rule func a method).1 = st ∧
      (collect_openapi_info st rule func a method).2 =
        (find_param func "header", find_param func "cookie",
          find_param func "path", find_param func "query",
          find_param func "form", find_param func "body") ∧
      (http_route method st rule a func).1.routes =
        st.routes ++
          [RouteEntry.api
            { path := ensure_leading_slash rule
              origin_path := rule
              endpoint := create_endpoint func (find_param func "header")
                (find_param func "cookie") (find_param func "path")
                (find_param func "query") (find_param func "form")
                (find_param func "body")
              methods := [method]
              name := a.name
              include_in_schema := false }] := by
  have hd : (st.doc_ui && a.doc_ui) = false := by
    rcases h with h | h <;> simp [h]
  refine ⟨?_, collect_openapi_info_snd st rule func a method,
    http_route_routes method st rule a func⟩
  unfold collect_openapi_info
  simp [hd]

/-- Witness for C9 at the route `get_book1` registered with doc_ui
disabled. -/
theorem C9_doc_ui_frame_witness :
    (routerW9.doc_ui = false ∨ argsW9.doc_ui = false) ∧
      ((collect_openapi_info routerW9 "/book1" funcW9 argsW9 "GET").1 = routerW9 ∧
        (collect_openapi_info routerW9 "/book1" funcW9 argsW9 "GET").2 =
          (find_param funcW9 "header", find_param funcW9 "cookie",
            find_param funcW9 "path", find_param funcW9 "query",
            find_param funcW9 "form", find_param funcW9 "body") ∧
        (http_route "GET" routerW9 "/book1" argsW9 funcW9).1.routes =
          routerW9.routes ++
            [RouteEntry.api
              { path := ensure_leading_slash "/book1"
                origin_path := "/book1"
                endpoint := create_endpoint funcW9 (find_param funcW9 "header")
                  (find_param funcW9 "cookie") (find_param funcW9 "path")
                  (find_param funcW9 "query") (find_param funcW9 "form")
                  (find_param funcW9 "body")
                methods := ["GET"]
                name := argsW9.name
                include_in_schema := false }]) :=
  ⟨Or.inr rfl, C9_doc_ui_frame routerW9 "/book1" funcW9 argsW9 "GET" (Or.inr rfl)⟩

theorem chain_route_mem (ps : List RouterState) :
    ∀ (c : RouterState) (r : APIRoute), RouteEntry.api r ∈ c.routes → ps ≠ [] →
      RouteEntry.api
        { path := ensure_leading_slash
            (prepend_all (applied_prefixes c ps) r.origin_path)
          origin_path := prepend_all (applied_prefixes c ps) r.origin_path
          endpoint := r.endpoint
          methods := r.methods
          name := r.name
          include_in_schema := true } ∈ (register_chain c ps).routes := by
  induction ps with
  | nil => intro c r _ hne; exact absurd rfl hne
  | cons p ps ih =>
    intro c r hm _
    have hm' : RouteEntry.api
        { path := ensure_leading_slash (c.urlPrefix ++ r.origin_path)
          origin_path := c.urlPrefix ++ r.origin_path
          endpoint := r.endpoint
          methods := r.methods
          name := r.name
          include_in_schema := true } ∈ (register_api p c).routes := by
      rw [register_api_routes]
      refine List.mem_append_right _ ?_
      have hmap := List.mem_map_of_mem (reregister_route c.urlPrefix) hm
      simpa [reregister_route] using hmap
    cases ps with
    | nil =>
      simpa [register_chain, applied_prefixes, prepend_all] using hm'
    | cons p' ps' =>
      have hres := ih (register_api p c) _ hm' (by simp)
      simpa [register_chain, applied_prefixes, prepend_all] using hres

/-- C10: (i) every OpenAPI path key of the child appears in the parent's
paths under the parent's `url_prefix` with trailing slashes stripped;
(ii) every route of the child is re-registered with the child's
`url_prefix` prepended to its `origin_path` (a missing leading slash being
restored, websocket routes alike); (iii) under any chain of nested
registrations the finally served path is the concatenation of the applied
ancestor `url_prefix` values followed by the original rule. -/
theorem C10_prefix_composition :
    (∀ (p c : RouterState) (k : String) (v : PathItem),
        (dkeys c.paths).Nodup → (k, v) ∈ c.paths →
        dlookup (rstripSlash p.urlPrefix ++ k) (register_api p c).paths = some v) ∧
      (∀ p c : RouterState,
        (register_api p c).routes =
          p.routes ++ c.routes.map (reregister_route c.urlPrefix)) ∧
      (∀ (c : RouterState) (ps : List RouterState) (r : APIRoute),
        RouteEntry.api r ∈ c.routes → ps ≠ [] →
        RouteEntry.api
          { path := ensure_leading_slash
              (prepend_all (applied_prefixes c ps) r.origin_path)
            origin_path := prepend_all (applied_prefixes c ps) r.origin_path
            endpoint := r.endpoint
            methods := r.methods
            name := r.name
            include_in_schema := true } ∈ (register_chain c ps).routes) := by
  refine ⟨?_, register_api_routes,
    fun c ps r hm hne => chain_route_mem ps c r hm hne⟩
  intro p c k v hnd hm
  rw [register_api_eq]
  show dlookup _
    (dupdate p.paths (c.paths.map fun kv => (rstripSlash p.urlPrefix ++ kv.1, kv.2)))
    = some v
  rw [dlookup_dupdate_of_nodup _ _ _ (nodup_dkeys_map_prefixed _ _ hnd)]
  rw [dlookup_eq_of_mem_of_nodup _ v _ (nodup_dkeys_map_prefixed _ _ hnd)
    (List.mem_map_of_mem _ hm)]
  rfl

/-- Witness for C10 at the nested registration of the test suite. -/
theorem C10_prefix_composition_witness :
    ((dkeys apiEnglishW.paths).Nodup ∧
      ("/english", ([] : PathItem)) ∈ apiEnglishW.paths ∧
      dlookup (rstripSlash apiBookW.urlPrefix ++ "/english")
        (register_api apiBookW apiEnglishW).paths = some []) ∧
      (RouteEntry.api routeW10 ∈ apiEnglishW.routes ∧
        ([apiBookW, appW] ≠ ([] : List RouterState)) ∧
        RouteEntry.api
          { path := ensure_leading_slash
              (prepend_all (applied_prefixes apiEnglishW [apiBookW, appW])
                routeW10.origin_path)
            origin_path := prepend_all
              (applied_prefixes apiEnglishW [apiBookW, appW]) routeW10.origin_path
            endpoint := routeW10.endpoint
            methods := routeW10.methods
            name := routeW10.name
            include_in_schema := true } ∈
          (register_chain apiEnglishW [apiBookW, appW]).routes) :=
  ⟨⟨by decide, by decide,
      C10_prefix_composition.1 apiBookW apiEnglishW "/english" []
        (by decide) (by decide)⟩,
    ⟨by decide, by decide,
      C10_prefix_composition.2.2 apiEnglishW [apiBookW, appW] routeW10
        (by decide) (by decide)⟩⟩

end StarOpenapi

